import Mathlib

/-!
Verification development for the MarketMakerBot trade decision and execution
engine.  The Python source is shallowly embedded over `ℚ`: every float becomes
a rational, `math.floor`/`math.ceil` become `Int.floor`/`Int.ceil`, and the
exchange client is replaced by explicit state (open-order lists, position
amounts, mark prices) passed to the embedded functions.
-/

namespace MMBot

/-! ## Quantization (src/src/execution.py, `_round_step` / `_format_by_step`)

The rounding direction argument `mode: str` of `_round_step` is embedded as an
inductive type.  `_format_by_step` returns a decimal string whose numeric value
is exactly `_round_step value step mode` (the decimal count is derived from the
step), so the embedding keeps the rational value. -/

inductive RoundMode where
  | down
  | up
deriving DecidableEq, Repr

/-- Embedding of `_round_step(value, step, mode)` (execution.py lines 6-14):
returns `value` unchanged when the step is zero, otherwise floors (mode
`down`) or ceils (mode `up`) `value/step` and multiplies back by the step. -/
def roundStep (value step : ℚ) (mode : RoundMode) : ℚ :=
  if step = 0 then value
  else
    match mode with
    | .down => (⌊value / step⌋ : ℚ) * step
    | .up => (⌈value / step⌉ : ℚ) * step

theorem roundStep_idem (value step : ℚ) (mode : RoundMode) :
    roundStep (roundStep value step mode) step mode = roundStep value step mode := by
  unfold roundStep
  by_cases hs : step = 0
  · simp [hs]
  · cases mode
    · simp only [hs, if_false]
      rw [mul_div_cancel_right₀ _ hs, Int.floor_intCast]
    · simp only [hs, if_false]
      rw [mul_div_cancel_right₀ _ hs, Int.ceil_intCast]

theorem roundStep_down_mono {a b : ℚ} (step : ℚ) (hs : 0 < step) (hab : a ≤ b) :
    roundStep a step .down ≤ roundStep b step .down := by
  unfold roundStep
  simp only [ne_of_gt hs, if_neg (ne_of_gt hs)]
  have h1 : a / step ≤ b / step := (div_le_div_iff_of_pos_right hs).mpr hab
  have h2 : ⌊a / step⌋ ≤ ⌊b / step⌋ := Int.floor_le_floor h1
  exact mul_le_mul_of_nonneg_right (by exact_mod_cast h2) (le_of_lt hs)

theorem roundStep_down_int_mul (k : ℤ) (step : ℚ) (hs : step ≠ 0) :
    roundStep ((k : ℚ) * step) step .down = (k : ℚ) * step := by
  unfold roundStep
  rw [if_neg hs, mul_div_cancel_right₀ _ hs, Int.floor_intCast]

/-- Helper: a value at least an integer multiple of the step stays at least
that multiple after rounding down to the step. -/
theorem le_roundStep_down_of_int_mul_le {m x step : ℚ} (k : ℤ) (hs : 0 < step)
    (hm : m = (k : ℚ) * step) (hx : m ≤ x) : m ≤ roundStep x step .down := by
  calc m = roundStep m step .down := by rw [hm, roundStep_down_int_mul k step (ne_of_gt hs)]
    _ ≤ roundStep x step .down := roundStep_down_mono step hs (hm ▸ hm ▸ hx)

/-! ## Entry-quantity pipeline (execution.py, `place_stop_limit_with_sl_tp`
lines 70-81)

The submitted entry quantity: round the raw quantity down to the step, bump it
to at least `min_qty`, bump it again if the notional is below the dynamic
minimum-notional floor (`if floor and notional < floor`, i.e. the floor is
nonzero and the notional is below it), and finally format the result by the
step in mode `down` — which rounds down once more. -/
def entryQtySubmitted (step minQty minNotional floorUsd limit qty : ℚ) : ℚ :=
  let qtyR := max (roundStep qty step .down) minQty
  let notional := limit * qtyR
  let floorV := max minNotional floorUsd
  let qtyR2 :=
    if floorV ≠ 0 ∧ notional < floorV then
      max qtyR (roundStep (floorV / limit) step .up)
    else qtyR
  roundStep qtyR2 step .down

/-! ## Order model

Exchange orders carry a type string, the `closePosition` and `reduceOnly`
flags, and (for the orders this engine creates) a price and a quantity.  For
trigger-style orders the `price` field holds the numeric value of the
submitted `stopPrice`. -/

inductive OrderType where
  | STOP
  | STOP_MARKET
  | TAKE_PROFIT
  | TAKE_PROFIT_MARKET
  | TRAILING_STOP_MARKET
  | LIMIT
deriving DecidableEq, BEq, Repr

structure Order where
  typ : OrderType
  closePosition : Bool
  reduceOnly : Bool
  price : ℚ
  qty : ℚ
deriving DecidableEq, Repr

inductive Side where
  | LONG
  | SHORT
deriving DecidableEq, Repr

/-! ## Flat cleanup (execution.py, `cancel_protection_if_flat` lines 464-488) -/

/-- Membership in the `protected_types` set of `cancel_protection_if_flat`
(execution.py line 476).  Plain `LIMIT` orders are not in the set. -/
def flatProtectedType : OrderType → Bool
  | .STOP => true
  | .STOP_MARKET => true
  | .TAKE_PROFIT => true
  | .TAKE_PROFIT_MARKET => true
  | .TRAILING_STOP_MARKET => true
  | .LIMIT => false

/-- The cancellation condition of `cancel_protection_if_flat` (execution.py
line 483): the order type is in `protected_types` and the order is
closePosition or reduce-only. -/
def flatCleanupCancels (o : Order) : Bool :=
  flatProtectedType o.typ && (o.closePosition || o.reduceOnly)

/-- Embedding of `cancel_protection_if_flat`: when the position is non-flat
the open orders are untouched; when it is flat, every open order matching the
cancellation condition is cancelled.  Returns the remaining open orders. -/
def cancelProtectionIfFlat (posAmt : ℚ) (orders : List Order) : List Order :=
  if posAmt ≠ 0 then orders
  else orders.filter (fun o => !flatCleanupCancels o)

/-- Modelled from the claim's wording (not from the source): a closePosition
or reduce-only protection order — stop-loss or take-profit, including
reduce-only LIMIT take-profits. -/
def claimFlatProtection (o : Order) : Bool :=
  (o.closePosition || o.reduceOnly) &&
    (flatProtectedType o.typ || (o.typ == .LIMIT && o.reduceOnly))

/-- Claim C1, as stated, is false: with a flat position (size 0) and a single
reduce-only LIMIT take-profit open, one run of `cancel_protection_if_flat`
leaves that order open (its type is not in `protected_types`), so 1 such
order remains, not 0. -/
theorem flat_cleanup_misses_reduce_only_limit :
    (cancelProtectionIfFlat 0
        [{ typ := .LIMIT, closePosition := false, reduceOnly := true,
           price := 100, qty := 1 }]).countP claimFlatProtection = 1 := by
  decide

/-- Claim C1 (amended): for a symbol with zero position size, after one run of
`cancel_protection_if_flat` exactly 0 closePosition/reduce-only orders of the
protected types (STOP, STOP_MARKET, TAKE_PROFIT, TAKE_PROFIT_MARKET,
TRAILING_STOP_MARKET) remain open; reduce-only LIMIT take-profits are outside
the protected-type set and are not removed by this operation. -/
theorem flat_cleanup_correct_on_protected_types (orders : List Order) :
    (cancelProtectionIfFlat 0 orders).countP flatCleanupCancels = 0 := by
  unfold cancelProtectionIfFlat
  rw [if_neg (by simp)]
  rw [List.countP_eq_zero]
  intro a ha
  have h := (List.mem_filter.mp ha).2
  simp only [Bool.not_eq_true'] at h
  simp [h]

/-! ## Claim C3: quantization idempotence and minimum quantity -/

/-- Claim C3, as stated, is false on its minimum-quantity half: the submitted
entry quantity is the bumped quantity rounded down to the step once more
(`_format_by_step(qty_r, step, mode='down')`), which lands below `min_qty`
when `min_qty` is not an integer multiple of the step.  Concretely: step
0.001, minQty 0.0015, minNotional 20, notional floor 50 USD, limit price
100000, raw qty 0.0001 → the bump yields `qty_r = 0.0015` (notional 150 is
above the floor, so no notional bump), and the submitted quantity is
0.001 < 0.0015. -/
theorem entry_qty_below_min_qty :
    entryQtySubmitted (1/1000) (3/2000) 20 50 100000 (1/10000) = 1/1000 ∧
      entryQtySubmitted (1/1000) (3/2000) 20 50 100000 (1/10000) < 3/2000 := by
  have h : entryQtySubmitted (1/1000) (3/2000) 20 50 100000 (1/10000) = 1/1000 := by
    unfold entryQtySubmitted roundStep
    norm_num
  exact ⟨h, by rw [h]; norm_num⟩

/-- Claim C3 (amended): quantizing twice with `_round_step` yields the same
result as quantizing once, for every value, step and mode; and the submitted
entry quantity of `place_stop_limit_with_sl_tp` is at least the instrument's
minimum quantity whenever the step is positive and `min_qty` is an integer
multiple of the step (as exchange filters have it); without that divisibility
the final per-step rounding can land below `min_qty`. -/
theorem quantize_idem_and_min_qty (v s : ℚ) (m : RoundMode)
    (step minQty minNotional floorUsd limit qty : ℚ) (k : ℤ)
    (hs : 0 < step) (hk : minQty = (k : ℚ) * step) :
    roundStep (roundStep v s m) s m = roundStep v s m ∧
      minQty ≤ entryQtySubmitted step minQty minNotional floorUsd limit qty := by
  refine ⟨roundStep_idem v s m, ?_⟩
  apply le_roundStep_down_of_int_mul_le k hs hk
  have h1 : minQty ≤ max (roundStep qty step .down) minQty := le_max_right _ _
  by_cases hc : max minNotional floorUsd ≠ 0 ∧
      limit * max (roundStep qty step .down) minQty < max minNotional floorUsd
  · simp only [entryQtySubmitted, if_pos hc]
    exact le_trans h1 (le_max_left _ _)
  · simp only [entryQtySubmitted, if_neg hc]
    exact h1

theorem quantize_idem_and_min_qty_witness :
    roundStep (roundStep 7 (1/2) .down) (1/2) .down = roundStep 7 (1/2) .down ∧
      (1/500 : ℚ) ≤ entryQtySubmitted (1/1000) (1/500) 20 50 100 3 :=
  quantize_idem_and_min_qty 7 (1/2) .down (1/1000) (1/500) 20 50 100 3 2
    (by norm_num) (by norm_num)

/-! ## Protection attachment (execution.py, `ensure_protection` lines 490-579
and the take-profit part of `place_stop_limit_with_sl_tp` lines 168-264)

The exchange client is replaced by explicit state: the list of currently open
orders, the (signed) position amount, and the mark price.  Creating an order
is modelled by returning it in the list of created orders. -/

structure Filters where
  tick : ℚ
  step : ℚ
  minQty : ℚ
deriving Repr

/-- Trigger-price safety buffer `max(tick * 5, mark * 0.0005)` (execution.py
lines 134, 525, 549). -/
def triggerBuffer (tick mark : ℚ) : ℚ :=
  max (tick * 5) (mark * (5/10000))

/-- Detection of an active closePosition stop order (execution.py line 497). -/
def hasSL (orders : List Order) : Bool :=
  orders.any fun o => (o.typ == .STOP || o.typ == .STOP_MARKET) && o.closePosition

/-- Detection of an active take-profit: a reduce-only LIMIT, or a
closePosition TAKE_PROFIT / TAKE_PROFIT_MARKET (execution.py lines 498-502). -/
def hasTP (orders : List Order) : Bool :=
  orders.any fun o =>
    (o.typ == .LIMIT && o.reduceOnly) ||
      ((o.typ == .TAKE_PROFIT || o.typ == .TAKE_PROFIT_MARKET) && o.closePosition)

/-- The closePosition STOP_MARKET stop-loss created by `ensure_protection`
(execution.py lines 524-535): the stop price is pushed away from the mark by
the trigger buffer and formatted by the tick. -/
def ensureSlOrder (tick mark : ℚ) (side : Side) (sl : ℚ) : Order :=
  let buf := triggerBuffer tick mark
  match side with
  | .LONG =>
      { typ := .STOP_MARKET, closePosition := true, reduceOnly := false,
        price := roundStep (min sl (mark - buf)) tick .down, qty := 0 }
  | .SHORT =>
      { typ := .STOP_MARKET, closePosition := true, reduceOnly := false,
        price := roundStep (max sl (mark + buf)) tick .up, qty := 0 }

/-- The take-profit orders created by `ensure_protection` when no take-profit
is active (execution.py lines 540-578): below `min_qty` a TAKE_PROFIT_MARKET
closePosition order; between `min_qty` and `2*min_qty` a single reduce-only
LIMIT with the whole quantity; otherwise a 50/50 split into two reduce-only
LIMIT orders, collapsed to one when the second half rounds below `min_qty`. -/
def ensureTpOrders (f : Filters) (mark : ℚ) (side : Side) (posQty tp1 tp2 : ℚ) :
    List Order :=
  let upMode : RoundMode := match side with | .LONG => .up | .SHORT => .down
  let tp1S := roundStep tp1 f.tick upMode
  let tp2S := roundStep tp2 f.tick upMode
  if posQty < 2 * f.minQty then
    if posQty < f.minQty then
      let buf := triggerBuffer f.tick mark
      let tpMkt := match side with
        | .LONG => roundStep (max tp1 (mark + buf)) f.tick .up
        | .SHORT => roundStep (min tp1 (mark - buf)) f.tick .down
      [{ typ := .TAKE_PROFIT_MARKET, closePosition := true, reduceOnly := false,
         price := tpMkt, qty := 0 }]
    else
      let qAll := roundStep posQty f.step .down
      [{ typ := .LIMIT, closePosition := false, reduceOnly := true,
         price := tp1S, qty := roundStep qAll f.step .down }]
  else
    let q1 := roundStep (posQty * (1/2)) f.step .down
    let q2 := roundStep (posQty - q1) f.step .down
    let q1' := if q2 < f.minQty then roundStep posQty f.step .down else q1
    let q2' := if q2 < f.minQty then 0 else q2
    { typ := .LIMIT, closePosition := false, reduceOnly := true,
      price := tp1S, qty := roundStep q1' f.step .down } ::
      (if q2' ≥ f.minQty then
        [{ typ := .LIMIT, closePosition := false, reduceOnly := true,
           price := tp2S, qty := roundStep q2' f.step .down }]
      else [])

/-- Embedding of `ensure_protection`: returns the list of orders the call
creates.  When a closePosition stop and a take-profit are both already open
it returns without creating anything; with no position it also creates
nothing.  (The `q1`/`q2` bindings at execution.py lines 518-519 are shadowed
by every branch that places orders and never reach an order, so they do not
appear here.) -/
def ensureProtectionCreated (f : Filters) (orders : List Order)
    (posAmt mark : ℚ) (side : Side) (sl tp1 tp2 : ℚ) : List Order :=
  if hasSL orders && hasTP orders then []
  else
    let posQty := |posAmt|
    if posQty ≤ 0 then []
    else
      (if !hasSL orders then [ensureSlOrder f.tick mark side sl] else []) ++
        (if !hasTP orders then ensureTpOrders f mark side posQty tp1 tp2 else [])

/-- One `ensure_protection` call as a transition on the open-order list: the
orders it creates become open. -/
def ensureProtectionStep (f : Filters) (orders : List Order)
    (posAmt mark : ℚ) (side : Side) (sl tp1 tp2 : ℚ) : List Order :=
  orders ++ ensureProtectionCreated f orders posAmt mark side sl tp1 tp2

/-- Claim C4: calling `ensure_protection` twice in succession on a position
whose open orders already contain an active closePosition stop-loss and a
reduce-only or closePosition take-profit places zero orders: both the first
and the second call detect the pair and return without creating any order,
leaving the open-order list unchanged. -/
theorem ensure_protection_idempotent (f : Filters) (orders : List Order)
    (posAmt mark : ℚ) (side : Side) (sl tp1 tp2 : ℚ)
    (hsl : hasSL orders = true) (htp : hasTP orders = true) :
    ensureProtectionCreated f orders posAmt mark side sl tp1 tp2 = [] ∧
      ensureProtectionCreated f
        (ensureProtectionStep f orders posAmt mark side sl tp1 tp2)
        posAmt mark side sl tp1 tp2 = [] ∧
      ensureProtectionStep f
        (ensureProtectionStep f orders posAmt mark side sl tp1 tp2)
        posAmt mark side sl tp1 tp2 = orders := by
  have h1 : ensureProtectionCreated f orders posAmt mark side sl tp1 tp2 = [] := by
    unfold ensureProtectionCreated
    simp [hsl, htp]
  have hstep : ensureProtectionStep f orders posAmt mark side sl tp1 tp2 = orders := by
    unfold ensureProtectionStep
    rw [h1, List.append_nil]
  refine ⟨h1, ?_, ?_⟩
  · rw [hstep]; exact h1
  · rw [hstep, hstep]

theorem ensure_protection_idempotent_witness :
    ensureProtectionCreated ⟨1/100, 1/1000, 1/1000⟩
        [{ typ := .STOP_MARKET, closePosition := true, reduceOnly := false,
           price := 95, qty := 0 },
         { typ := .LIMIT, closePosition := false, reduceOnly := true,
           price := 105, qty := 1 }] 2 100 .LONG 95 105 110 = [] ∧
      ensureProtectionCreated ⟨1/100, 1/1000, 1/1000⟩
        (ensureProtectionStep ⟨1/100, 1/1000, 1/1000⟩
          [{ typ := .STOP_MARKET, closePosition := true, reduceOnly := false,
             price := 95, qty := 0 },
           { typ := .LIMIT, closePosition := false, reduceOnly := true,
             price := 105, qty := 1 }] 2 100 .LONG 95 105 110)
        2 100 .LONG 95 105 110 = [] ∧
      ensureProtectionStep ⟨1/100, 1/1000, 1/1000⟩
        (ensureProtectionStep ⟨1/100, 1/1000, 1/1000⟩
          [{ typ := .STOP_MARKET, closePosition := true, reduceOnly := false,
             price := 95, qty := 0 },
           { typ := .LIMIT, closePosition := false, reduceOnly := true,
             price := 105, qty := 1 }] 2 100 .LONG 95 105 110)
        2 100 .LONG 95 105 110 =
        [{ typ := .STOP_MARKET, closePosition := true, reduceOnly := false,
           price := 95, qty := 0 },
         { typ := .LIMIT, closePosition := false, reduceOnly := true,
           price := 105, qty := 1 }] :=
  ensure_protection_idempotent ⟨1/100, 1/1000, 1/1000⟩ _ 2 100 .LONG 95 105 110
    (by decide) (by decide)

/-- Take-profit orders created after a fill by `place_stop_limit_with_sl_tp`
(execution.py lines 168-264): minimum take-profit distances are enforced
against the mark-price anchor with an ATR proxy `max(mark*0.003, tick*3)`;
then the position quantity is split — at or above `2*min_qty` a 50/50 split
(collapsed to a single full-quantity order when either half rounds below
`min_qty`), between `min_qty` and `2*min_qty` a single full-quantity order,
and below `min_qty` a TAKE_PROFIT_MARKET closePosition order.  The
reduce-only LIMIT take-profits are only submitted when their quantity is at
least `min_qty`.  The second mark-price fetch of the sub-minimum branch reads
the same state, so the same `mark` value is used. -/
def placeTpCreated (f : Filters) (side : Side) (posQty mark tp1 tp2 : ℚ) :
    List Order :=
  let atrAbs := max (mark * (3/1000)) (f.tick * 3)
  let minD1 := max ((6/10) * atrAbs) (f.tick * 3)
  let minD2 := max ((8/10) * atrAbs) (f.tick * 3)
  let tp1A := match side with
    | .LONG => max tp1 (mark + minD1)
    | .SHORT => min tp1 (mark - minD1)
  let tp2A := match side with
    | .LONG => max tp2 (tp1A + minD2)
    | .SHORT => min tp2 (tp1A - minD2)
  let upMode : RoundMode := match side with | .LONG => .up | .SHORT => .down
  let tp1S := roundStep tp1A f.tick upMode
  let tp2S := roundStep tp2A f.tick upMode
  let split : ℚ × ℚ × List Order :=
    if posQty ≥ 2 * f.minQty then
      let q1 := roundStep (posQty * (1/2)) f.step .down
      let q2 := roundStep (posQty - q1) f.step .down
      let q1' := if q2 < f.minQty then roundStep posQty f.step .down else q1
      let q2' := if q2 < f.minQty then 0 else q2
      let q1'' := if q1' < f.minQty then roundStep posQty f.step .down else q1'
      let q2'' := if q1' < f.minQty then 0 else q2'
      (q1'', q2'', [])
    else if posQty ≥ f.minQty then
      (roundStep posQty f.step .down, 0, [])
    else
      let buf := triggerBuffer f.tick mark
      let tpMkt := match side with
        | .LONG => roundStep (max tp1A (mark + buf)) f.tick .up
        | .SHORT => roundStep (min tp1A (mark - buf)) f.tick .down
      (0, 0,
        [{ typ := .TAKE_PROFIT_MARKET, closePosition := true, reduceOnly := false,
           price := tpMkt, qty := 0 }])
  split.2.2 ++
    (if split.1 ≥ f.minQty then
      [{ typ := .LIMIT, closePosition := false, reduceOnly := true,
         price := tp1S, qty := roundStep split.1 f.step .down }]
    else []) ++
    (if split.2.1 ≥ f.minQty then
      [{ typ := .LIMIT, closePosition := false, reduceOnly := true,
         price := tp2S, qty := roundStep split.2.1 f.step .down }]
    else [])

/-- Observation: an order is a reduce-only LIMIT take-profit. -/
def isRoLimit (o : Order) : Bool :=
  match o.typ with
  | .LIMIT => o.reduceOnly
  | _ => false

/-- Observation: an order is a closePosition TAKE_PROFIT_MARKET. -/
def isCloseTpMarket (o : Order) : Bool :=
  match o.typ with
  | .TAKE_PROFIT_MARKET => o.closePosition
  | _ => false

/-- Count of reduce-only LIMIT take-profit orders in a list. -/
def roLimitCount (l : List Order) : ℕ :=
  l.countP isRoLimit

/-- Count of closePosition TAKE_PROFIT_MARKET orders in a list. -/
def closeTpMarketCount (l : List Order) : ℕ :=
  l.countP isCloseTpMarket

/-- Claim C8, as stated, is false on its second half for the entry-placement
path: with step 0.001 and minQty 0.0015 (minQty not a multiple of the step),
a position of exactly 0.0015 is at least minQty and below twice minQty, yet
`place_stop_limit_with_sl_tp` rounds the full quantity down to 0.001 < minQty
and the guard `q1 >= min_qty` then suppresses the reduce-only LIMIT
take-profit — zero take-profit orders are placed, not one. -/
theorem tp_single_limit_missing :
    roLimitCount (placeTpCreated ⟨1/100, 1/1000, 3/2000⟩ .LONG (3/2000) 100 101 102) = 0 ∧
      closeTpMarketCount
        (placeTpCreated ⟨1/100, 1/1000, 3/2000⟩ .LONG (3/2000) 100 101 102) = 0 := by
  have hq : roundStep (3/2000) (1/1000) .down = 1/1000 := by
    unfold roundStep; norm_num
  constructor <;>
    norm_num [placeTpCreated, roLimitCount, closeTpMarketCount, isRoLimit,
      isCloseTpMarket, hq]

/-- Claim C8 (amended): when the filled position quantity is below the
instrument's minimum quantity, the take-profit collapses to a single
TAKE_PROFIT_MARKET closePosition order and no reduce-only LIMIT take-profit
is placed — in both the entry-placement path and `ensure_protection`, for
every filter configuration with a positive `min_qty`.  When the quantity is
at least minQty but below twice minQty, `ensure_protection` places a single
reduce-only LIMIT take-profit instead of two unconditionally, while the
entry-placement path does so provided minQty is an integer multiple of the
step — without that divisibility the step-rounded quantity can fall below
minQty and the `q1 >= min_qty` guard suppresses the LIMIT (the
counterexample above). -/
theorem tp_collapse_by_position_size (f : Filters) (side : Side)
    (posQty mark tp1 tp2 : ℚ)
    (hstep : 0 < f.step) (hmin : 0 < f.minQty) :
    (posQty < f.minQty →
        roLimitCount (placeTpCreated f side posQty mark tp1 tp2) = 0 ∧
        closeTpMarketCount (placeTpCreated f side posQty mark tp1 tp2) = 1 ∧
        roLimitCount (ensureTpOrders f mark side posQty tp1 tp2) = 0 ∧
        closeTpMarketCount (ensureTpOrders f mark side posQty tp1 tp2) = 1) ∧
      (f.minQty ≤ posQty → posQty < 2 * f.minQty →
        roLimitCount (ensureTpOrders f mark side posQty tp1 tp2) = 1 ∧
        closeTpMarketCount (ensureTpOrders f mark side posQty tp1 tp2) = 0 ∧
        ((∃ k : ℤ, f.minQty = (k : ℚ) * f.step) →
          roLimitCount (placeTpCreated f side posQty mark tp1 tp2) = 1 ∧
          closeTpMarketCount (placeTpCreated f side posQty mark tp1 tp2) = 0)) := by
  constructor
  · intro hlt
    have hlt2 : posQty < 2 * f.minQty := lt_trans hlt (by linarith)
    have c1 : ¬ 2 * f.minQty ≤ posQty := not_le.mpr hlt2
    have c2 : ¬ f.minQty ≤ posQty := not_le.mpr hlt
    have cz : ¬ f.minQty ≤ (0 : ℚ) := not_le.mpr hmin
    refine ⟨?_, ?_, ?_, ?_⟩ <;>
      cases side <;>
        simp [placeTpCreated, ensureTpOrders, roLimitCount, closeTpMarketCount,
          isRoLimit, isCloseTpMarket, List.countP_cons,
          c1, c2, hlt2, hlt, cz]
  · intro hge hlt
    have hnlt : ¬ posQty < f.minQty := not_lt.mpr hge
    have c1 : ¬ 2 * f.minQty ≤ posQty := not_le.mpr hlt
    have cz : ¬ f.minQty ≤ (0 : ℚ) := not_le.mpr hmin
    refine ⟨?_, ?_, ?_⟩
    · cases side <;>
        simp [ensureTpOrders, roLimitCount, isRoLimit, List.countP_cons,
          hlt, hnlt]
    · cases side <;>
        simp [ensureTpOrders, closeTpMarketCount, isCloseTpMarket,
          List.countP_cons, hlt, hnlt]
    · rintro ⟨k, hdiv⟩
      have hq1 : f.minQty ≤ roundStep posQty f.step .down :=
        le_roundStep_down_of_int_mul_le k hstep hdiv hge
      constructor <;>
        cases side <;>
          simp [placeTpCreated, roLimitCount, closeTpMarketCount, isRoLimit,
            isCloseTpMarket, List.countP_cons, c1, hge, hq1, cz]

theorem tp_collapse_by_position_size_witness :
    (roLimitCount (placeTpCreated ⟨1/100, 1/1000, 3/2000⟩ .LONG (1/2000) 100 101 102) = 0 ∧
      closeTpMarketCount
        (placeTpCreated ⟨1/100, 1/1000, 3/2000⟩ .LONG (1/2000) 100 101 102) = 1 ∧
      roLimitCount (ensureTpOrders ⟨1/100, 1/1000, 3/2000⟩ 100 .LONG (1/2000) 101 102) = 0 ∧
      closeTpMarketCount
        (ensureTpOrders ⟨1/100, 1/1000, 3/2000⟩ 100 .LONG (1/2000) 101 102) = 1) ∧
      (roLimitCount (ensureTpOrders ⟨1/100, 1/1000, 3/2000⟩ 100 .LONG (3/2000) 101 102) = 1 ∧
        closeTpMarketCount
          (ensureTpOrders ⟨1/100, 1/1000, 3/2000⟩ 100 .LONG (3/2000) 101 102) = 0) ∧
      (roLimitCount (placeTpCreated ⟨1/100, 1/1000, 1/1000⟩ .LONG (3/2000) 100 101 102) = 1 ∧
        closeTpMarketCount
          (placeTpCreated ⟨1/100, 1/1000, 1/1000⟩ .LONG (3/2000) 100 101 102) = 0) := by
  refine ⟨(tp_collapse_by_position_size ⟨1/100, 1/1000, 3/2000⟩ .LONG (1/2000) 100 101 102
    (by norm_num) (by norm_num)).1 (by norm_num), ?_, ?_⟩
  · have h := (tp_collapse_by_position_size ⟨1/100, 1/1000, 3/2000⟩ .LONG (3/2000) 100 101 102
      (by norm_num) (by norm_num)).2 (by norm_num) (by norm_num)
    exact ⟨h.1, h.2.1⟩
  · have h := (tp_collapse_by_position_size ⟨1/100, 1/1000, 1/1000⟩ .LONG (3/2000) 100 101 102
      (by norm_num) (by norm_num)).2 (by norm_num) (by norm_num)
    exact h.2.2 ⟨1, by norm_num⟩

/-! ## Claim C2: dynamic leverage cap (run.py lines 20-38, 89-106, 599-609) -/

/-- Embedding of `_dynamic_leverage_cap` (run.py lines 20-27); a NaN ATR
percent is modelled as `none` and keeps the base cap. -/
def dynamicLeverageCap (atrPercent : Option ℚ) (baseCap : ℚ) : ℚ :=
  match atrPercent with
  | none => baseCap
  | some a =>
    if a ≤ 3/100 then min baseCap 3
    else if a ≥ 7/100 then min baseCap 2
    else baseCap

/-- Embedding of `_compute_dynamic_leverage` (run.py lines 89-106): a small
ordered table keyed by stop-distance percent and risk/reward, clamped to
[5, 20].  The Python function's `atr_percent` and `mode` parameters are
unused in its body and are dropped here. -/
def computeDynamicLeverage (stopDistance entry rr : ℚ) : ℚ :=
  let stopPct := |stopDistance| / max (1/1000000000) entry
  let lev : ℚ :=
    if stopPct ≤ 5/1000 ∧ rr ≥ 3/2 then 20
    else if stopPct ≤ 8/1000 ∧ rr ≥ 6/5 then 15
    else if stopPct ≤ 12/1000 then 10
    else 5
  max 5 (min lev 20)

/-- The two notional-scaling steps of the scan loop (run.py lines 599-609 for
longs, mirrored at 704-712 for shorts): the quantity is scaled down when the
notional exceeds `equity * lev`, then again when it exceeds
`equity * lev_cap_dyn`. -/
def applyNotionalCaps (entry qty equity lev levCapDyn : ℚ) : ℚ :=
  let q1 := if entry * qty > equity * lev then qty * ((equity * lev) / (entry * qty)) else qty
  if entry * q1 > equity * levCapDyn then q1 * ((equity * levCapDyn) / (entry * q1)) else q1

/-- Helper: one notional-scaling step leaves the notional at most the cap and
never increases it. -/
theorem notional_cap_step (entry qty cap : ℚ) (hcap : 0 ≤ cap) :
    entry * (if entry * qty > cap then qty * (cap / (entry * qty)) else qty) ≤ cap ∧
      entry * (if entry * qty > cap then qty * (cap / (entry * qty)) else qty) ≤
        entry * qty := by
  by_cases hc : entry * qty > cap
  · have hne : entry * qty ≠ 0 := ne_of_gt (lt_of_le_of_lt hcap hc)
    have heq : entry * (qty * (cap / (entry * qty))) = cap := by
      rw [show entry * (qty * (cap / (entry * qty))) = entry * qty * cap / (entry * qty) by
        ring]
      rw [mul_comm (entry * qty) cap, mul_div_assoc, div_self hne, mul_one]
    rw [if_pos hc]
    exact ⟨le_of_eq heq, by rw [heq]; exact le_of_lt hc⟩
  · rw [if_neg hc]
    exact ⟨not_lt.mp hc, le_refl _⟩

theorem computeDynamicLeverage_nonneg (stopDistance entry rr : ℚ) :
    0 ≤ computeDynamicLeverage stopDistance entry rr := by
  unfold computeDynamicLeverage
  exact le_trans (by norm_num) (le_max_left 5 _)

theorem dynamicLeverageCap_nonneg (atrPercent : Option ℚ) (baseCap : ℚ)
    (hb : 0 ≤ baseCap) : 0 ≤ dynamicLeverageCap atrPercent baseCap := by
  unfold dynamicLeverageCap
  cases atrPercent with
  | none => exact hb
  | some a =>
    by_cases h1 : a ≤ 3/100
    · simp only [if_pos h1]
      exact le_min hb (by norm_num)
    · by_cases h2 : a ≥ 7/100 <;> simp only [if_neg h1, h2, if_pos, if_neg, if_true, if_false]
      · exact le_min hb (by norm_num)
      · exact hb

/-- Claim C2: for every plan of the scan loop with positive equity (and a
non-negative configured base leverage cap), after the two notional-scaling
steps the implied leverage `(entry * quantity) / equity` is at most the
minimum of the per-trade dynamic leverage and the volatility-adjusted
leverage cap in force for the cycle. -/
theorem implied_leverage_le_cap (stopDistance entry rr qty equity baseCap : ℚ)
    (atrPercent : Option ℚ) (he : 0 < equity) (hb : 0 ≤ baseCap) :
    entry * applyNotionalCaps entry qty equity
        (computeDynamicLeverage stopDistance entry rr)
        (dynamicLeverageCap atrPercent baseCap) / equity ≤
      min (computeDynamicLeverage stopDistance entry rr)
        (dynamicLeverageCap atrPercent baseCap) := by
  have hL : 0 ≤ computeDynamicLeverage stopDistance entry rr :=
    computeDynamicLeverage_nonneg stopDistance entry rr
  have hC : 0 ≤ dynamicLeverageCap atrPercent baseCap :=
    dynamicLeverageCap_nonneg atrPercent baseCap hb
  have h1 := notional_cap_step entry qty
    (equity * computeDynamicLeverage stopDistance entry rr) (mul_nonneg he.le hL)
  have h2 := notional_cap_step entry
    (if entry * qty > equity * computeDynamicLeverage stopDistance entry rr then
      qty * ((equity * computeDynamicLeverage stopDistance entry rr) / (entry * qty))
    else qty)
    (equity * dynamicLeverageCap atrPercent baseCap) (mul_nonneg he.le hC)
  apply le_min
  · rw [div_le_iff₀ he]
    calc entry * applyNotionalCaps entry qty equity
          (computeDynamicLeverage stopDistance entry rr)
          (dynamicLeverageCap atrPercent baseCap) ≤
        entry * (if entry * qty > equity * computeDynamicLeverage stopDistance entry rr then
          qty * ((equity * computeDynamicLeverage stopDistance entry rr) / (entry * qty))
        else qty) := h2.2
      _ ≤ equity * computeDynamicLeverage stopDistance entry rr := h1.1
      _ = computeDynamicLeverage stopDistance entry rr * equity := mul_comm _ _
  · rw [div_le_iff₀ he]
    calc entry * applyNotionalCaps entry qty equity
          (computeDynamicLeverage stopDistance entry rr)
          (dynamicLeverageCap atrPercent baseCap) ≤
        equity * dynamicLeverageCap atrPercent baseCap := h2.1
      _ = dynamicLeverageCap atrPercent baseCap * equity := mul_comm _ _

theorem implied_leverage_le_cap_witness :
    (100 : ℚ) * applyNotionalCaps 100 500 10000
        (computeDynamicLeverage 1 100 2) (dynamicLeverageCap (some (1/50)) 3) / 10000 ≤
      min (computeDynamicLeverage 1 100 2) (dynamicLeverageCap (some (1/50)) 3) :=
  implied_leverage_le_cap 1 100 2 500 10000 3 (some (1/50)) (by norm_num) (by norm_num)

/-! ## Claim C5: the daily-loss breaker (src/src/risk.py lines 11-12, run.py
lines 404-407) -/

/-- Embedding of `RiskEngine.can_trade_today` (risk.py lines 11-12): true iff
the accumulated day P&L in R units is strictly above the negative loss cap. -/
def canTradeToday (dayRPnl maxDailyLossR : ℚ) : Bool :=
  dayRPnl > -maxDailyLossR

/-- The daily-loss guard as the scan cycle actually evaluates it: run.py line
404 constructs `RiskEngine(cfg, equity=equity)` freshly each cycle, and the
constructor initialises `day_r_pnl = 0.0` (risk.py line 8).  Nothing in
run.py ever calls `on_trade_result` or `DayState.add_R`, so the persisted
`DayState.net_R` — the `netR` argument here — is never fed into the engine
and the guard always checks 0.0, exactly as in the code (the argument is
deliberately unread). -/
def scanCycleDailyGuard (netR maxDailyLossR : ℚ) : Bool :=
  canTradeToday 0 maxDailyLossR

/-- Claim C5 names a genuine code defect: `can_trade_today` itself returns
false once the accumulated P&L is at or below the negative threshold
(including exact equality, first two conjuncts, at net_R = -3 and net_R = -2
with cap 2), but the scan cycle evaluates the guard on a freshly constructed
RiskEngine whose `day_r_pnl` is 0.0, so with persisted net_R = -3 and
max_daily_loss_r = 2 the cycle's guard still returns true and the cycle
proceeds toward entry placement: the breaker never trips across cycles. -/
theorem daily_breaker_not_wired :
    canTradeToday (-3) 2 = false ∧ canTradeToday (-2) 2 = false ∧
      scanCycleDailyGuard (-3) 2 = true := by
  refine ⟨?_, ?_, ?_⟩ <;> norm_num [canTradeToday, scanCycleDailyGuard]

/-! ## Claim C6: target ordering after minimum-distance enforcement
(run.py lines 560-576 for longs, 667-683 for shorts) -/

/-- Minimum-distance enforcement on the two long targets (run.py lines
561-576): `t1` is pushed to at least `entry + max(mul1*ATR, 3*tick)` and `t2`
to at least the adjusted `t1 + max(mul2*ATR, 3*tick)`. -/
def enforceMinTargetsLong (entry t1 t2 atr tick mul1 mul2 : ℚ) : ℚ × ℚ :=
  let minDelta1 := max (mul1 * atr) (3 * tick)
  let t1' := if t1 < entry + minDelta1 then entry + minDelta1 else t1
  let minDelta2 := max (mul2 * atr) (3 * tick)
  let t2' := if t2 < t1' + minDelta2 then t1' + minDelta2 else t2
  (t1', t2')

/-- Minimum-distance enforcement on the two short targets (run.py lines
668-683), mirrored downward. -/
def enforceMinTargetsShort (entry t1 t2 atr tick mul1 mul2 : ℚ) : ℚ × ℚ :=
  let minDelta1 := max (mul1 * atr) (3 * tick)
  let t1' := if t1 > entry - minDelta1 then entry - minDelta1 else t1
  let minDelta2 := max (mul2 * atr) (3 * tick)
  let t2' := if t2 > t1' - minDelta2 then t1' - minDelta2 else t2
  (t1', t2')

/-- Helper: the upward bump is bounded below by the bound. -/
theorem bump_up_ge (x b : ℚ) : b ≤ if x < b then b else x := by
  by_cases h : x < b
  · simp [h]
  · simp [h, not_lt.mp h]

/-- Helper: the downward bump is bounded above by the bound. -/
theorem bump_down_le (x b : ℚ) : (if x > b then b else x) ≤ b := by
  by_cases h : x > b
  · simp [h]
  · simp [h, not_lt.mp h]

/-- Claim C6: after minimum-distance enforcement, long targets satisfy
`entry < target1 < target2` and short targets `entry > target1 > target2`,
for every raw target pair, whenever ATR and the tick size are positive. -/
theorem target_ordering (entry t1 t2 u1 u2 atr tick mul1 mul2 : ℚ)
    (ha : 0 < atr) (ht : 0 < tick) :
    (entry < (enforceMinTargetsLong entry t1 t2 atr tick mul1 mul2).1 ∧
      (enforceMinTargetsLong entry t1 t2 atr tick mul1 mul2).1 <
        (enforceMinTargetsLong entry t1 t2 atr tick mul1 mul2).2) ∧
      ((enforceMinTargetsShort entry u1 u2 atr tick mul1 mul2).1 < entry ∧
        (enforceMinTargetsShort entry u1 u2 atr tick mul1 mul2).2 <
          (enforceMinTargetsShort entry u1 u2 atr tick mul1 mul2).1) := by
  have hd1 : 0 < max (mul1 * atr) (3 * tick) :=
    lt_of_lt_of_le (by linarith) (le_max_right _ _)
  have hd2 : 0 < max (mul2 * atr) (3 * tick) :=
    lt_of_lt_of_le (by linarith) (le_max_right _ _)
  unfold enforceMinTargetsLong enforceMinTargetsShort
  refine ⟨⟨?_, ?_⟩, ?_, ?_⟩
  · exact lt_of_lt_of_le (by linarith) (bump_up_ge t1 _)
  · exact lt_of_lt_of_le (by linarith [bump_up_ge t1 (entry + max (mul1 * atr) (3 * tick))])
      (bump_up_ge t2 _)
  · exact lt_of_le_of_lt (bump_down_le u1 _) (by linarith)
  · exact lt_of_le_of_lt (bump_down_le u2 _)
      (by linarith [bump_down_le u1 (entry - max (mul1 * atr) (3 * tick))])

theorem target_ordering_witness :
    ((100 : ℚ) < (enforceMinTargetsLong 100 (1003/10) (1004/10) 5 (1/100) (6/10) (8/10)).1 ∧
      (enforceMinTargetsLong 100 (1003/10) (1004/10) 5 (1/100) (6/10) (8/10)).1 <
        (enforceMinTargetsLong 100 (1003/10) (1004/10) 5 (1/100) (6/10) (8/10)).2) ∧
      ((enforceMinTargetsShort 100 (997/10) (996/10) 5 (1/100) (6/10) (8/10)).1 < 100 ∧
        (enforceMinTargetsShort 100 (997/10) (996/10) 5 (1/100) (6/10) (8/10)).2 <
          (enforceMinTargetsShort 100 (997/10) (996/10) 5 (1/100) (6/10) (8/10)).1) :=
  target_ordering 100 (1003/10) (1004/10) (997/10) (996/10) 5 (1/100) (6/10) (8/10)
    (by norm_num) (by norm_num)

/-! ## Claims C7 and C10: per-trade risk fraction and position sizing
(run.py lines 41-69, src/src/risk.py lines 14-22) -/

/-- Embedding of `RiskEngine.position_size` (risk.py lines 14-22): the
per-trade risk fraction is halved on a losing streak of 3 or more, a
non-positive stop distance returns 0.0 before any division is performed, and
the returned quantity is clamped to be non-negative. -/
def positionSize (rPerTrade : ℚ) (losingStreak : ℕ) (equity stopDistance : ℚ) : ℚ :=
  let r := if losingStreak ≥ 3 then rPerTrade * (1/2) else rPerTrade
  if stopDistance ≤ 0 then 0
  else max 0 (equity * r / stopDistance)

/-- Embedding of `_compute_dynamic_r_per_trade` (run.py lines 41-69).  The
`sqrtScale` parameter stands for `math.sqrt(max(1.0, equity) / 10000.0)`,
which is irrational in general; theorems that depend on its value constrain
it by `0 ≤ sqrtScale` and `sqrtScale * sqrtScale = max 1 equity / 10000`.
`baseR` is the config lookup `cfg['modes'][mode]['r_per_trade']` (falling
back to `cfg['risk']['r_per_trade']`), `atrPercent` is the regime ATR percent
(`none` for NaN, whose `> 0.07` comparison is false as in Python), `newsR`
the optional news-supplied risk ceiling and `rMax` the configured global
maximum `cfg['risk']['max_r_per_trade']`. -/
def computeDynamicRPerTrade (baseR sqrtScale : ℚ) (atrPercent : Option ℚ)
    (newsR : Option ℚ) (rMax : ℚ) : ℚ :=
  let rDyn := baseR * sqrtScale
  let rCeiling : ℚ :=
    match atrPercent with
    | some a => if a > 7/100 then 8/1000 else 10/1000
    | none => 10/1000
  let rClamped := max (3/1000) (min rDyn rCeiling)
  let rNews :=
    match newsR with
    | some nr => min rClamped nr
    | none => rClamped
  max 0 (min rNews rMax)

/-- Modelled from the claim's wording (not from the source): base_r ×
sqrt(equity/10000) clamped into [0.003, 0.010] with the ceiling lowered to
0.008 when ATR% > 0.07, then capped by the news-supplied ceiling and the
configured global maximum. -/
def claimRiskFraction (baseR sqrtScale : ℚ) (atrPercent : Option ℚ)
    (newsR : Option ℚ) (rMax : ℚ) : ℚ :=
  let ceiling : ℚ :=
    match atrPercent with
    | some a => if a > 7/100 then 8/1000 else 10/1000
    | none => 10/1000
  let clamped := max (3/1000) (min (baseR * sqrtScale) ceiling)
  let capped :=
    match newsR with
    | some nr => min clamped nr
    | none => clamped
  min capped rMax

/-- Claim C7: the dynamic per-trade risk fraction computed by the code equals
the claim's formula — base_r × sqrt(equity/10000) clamped into [0.003,
0.010] (ceiling 0.008 when ATR% > 0.07), capped by the news ceiling and the
global maximum — whenever the news ceiling and the global maximum are
non-negative (the code additionally floors the result at 0, which only
differs for negative caps).  The scenario instance (equity = 10000, base_r =
0.003, stop distance = 50 → quantity 0.6) is checked in the witness. -/
theorem dynamic_r_matches_formula (baseR sqrtScale rMax : ℚ)
    (atrPercent newsR : Option ℚ)
    (hn : ∀ x, newsR = some x → 0 ≤ x) (hr : 0 ≤ rMax) :
    computeDynamicRPerTrade baseR sqrtScale atrPercent newsR rMax =
      claimRiskFraction baseR sqrtScale atrPercent newsR rMax := by
  unfold computeDynamicRPerTrade claimRiskFraction
  have hcl : (0 : ℚ) ≤ max (3/1000)
      (min (baseR * sqrtScale)
        (match atrPercent with
          | some a => if a > 7/100 then 8/1000 else 10/1000
          | none => 10/1000)) :=
    le_trans (by norm_num) (le_max_left _ _)
  cases newsR with
  | none => exact max_eq_right (le_min hcl hr)
  | some nr => exact max_eq_right (le_min (le_min hcl (hn nr rfl)) hr)

theorem dynamic_r_matches_formula_witness :
    computeDynamicRPerTrade (3/1000) 1 none none (1/100) =
        claimRiskFraction (3/1000) 1 none none (1/100) ∧
      computeDynamicRPerTrade (3/1000) 1 none none (1/100) = 3/1000 ∧
      (1 : ℚ) * 1 = max 1 10000 / 10000 ∧
      positionSize (3/1000) 0 10000 50 = 3/5 := by
  refine ⟨dynamic_r_matches_formula (3/1000) 1 (1/100) none none
    (fun x hx => by cases hx) (by norm_num), ?_, by norm_num, ?_⟩
  · norm_num [computeDynamicRPerTrade]
  · norm_num [positionSize]

/-- Claim C10: `position_size` returns exactly 0 for every non-positive stop
distance (the guard fires before the division), and its result is
non-negative for every risk fraction, losing streak, equity and stop
distance. -/
theorem position_size_safe (rPerTrade : ℚ) (losingStreak : ℕ)
    (equity stopDistance : ℚ) :
    (stopDistance ≤ 0 → positionSize rPerTrade losingStreak equity stopDistance = 0) ∧
      0 ≤ positionSize rPerTrade losingStreak equity stopDistance := by
  constructor
  · intro h
    unfold positionSize
    simp [h]
  · unfold positionSize
    by_cases h : stopDistance ≤ 0
    · simp [h]
    · simp only [h, if_false]
      exact le_max_left 0 _

theorem position_size_safe_witness :
    positionSize 1 2 100 (-1) = 0 ∧ 0 ≤ positionSize (3/1000) 0 10000 50 :=
  ⟨(position_size_safe 1 2 100 (-1)).1 (by norm_num),
    (position_size_safe (3/1000) 0 10000 50).2⟩

/-! ## Claim C9: regime gates, risk scaling and the soft veto
(src/src/regime.py lines 26-70; run.py lines 289-293, 301-335, 401-407) -/

structure RegimeCfg where
  adxMin : ℚ
  atrpMin : ℚ
  atrpMax : ℚ
  fundingAbsMax : ℚ
deriving Repr

structure RegimeResult where
  ok : Bool
  riskScale : ℚ
deriving Repr, DecidableEq

/-- The ADX gate of `regime_filter` (regime.py line 43), on the computed 4h
ADX metric. -/
def adxGate (cfg : RegimeCfg) (adx4h : ℚ) : Bool :=
  adx4h ≥ cfg.adxMin

/-- The ATR-percent gate (regime.py line 44): the band check, false for NaN
(`none`). -/
def atrpGate (cfg : RegimeCfg) (atrp : Option ℚ) : Bool :=
  match atrp with
  | some a => cfg.atrpMin ≤ a ∧ a ≤ cfg.atrpMax
  | none => false

/-- The funding gate (regime.py line 45). -/
def fundingGate (cfg : RegimeCfg) (fundingAbs : ℚ) : Bool :=
  |fundingAbs| ≤ cfg.fundingAbsMax

/-- The high-volatility condition guarding the ×0.6 cut (regime.py line 58):
not NaN and ATR% above 0.10. -/
def atrpHigh (atrp : Option ℚ) : Bool :=
  match atrp with
  | some a => a > 1/10
  | none => false

/-- The ok flag and risk scale of `regime_filter` (regime.py lines 48-70),
as a function of the computed metrics: all gates must pass for ok; on
failure the scale starts at 1 and is multiplied by 0.5 on a funding breach
and by 0.6 when the ATR-percent gate failed with ATR% > 0.10. -/
def regimeFilterResult (cfg : RegimeCfg) (atrp : Option ℚ)
    (adx4h fundingAbs : ℚ) : RegimeResult :=
  let ok := adxGate cfg adx4h && atrpGate cfg atrp && fundingGate cfg fundingAbs
  let riskScale : ℚ :=
    if ok then 1
    else
      let s1 : ℚ := if fundingGate cfg fundingAbs then 1 else 1 * (1/2)
      let s2 : ℚ :=
        if atrpGate cfg atrp then s1
        else if atrpHigh atrp then s1 * (6/10) else s1
      s2
  ⟨ok, riskScale⟩

/-- The regime risk scaler as applied to the per-trade risk fraction
(run.py line 403): `r_per_trade *= max(0.2, min(1.0, risk_scale))`. -/
def appliedRiskScale (riskScale : ℚ) : ℚ :=
  max (2/10) (min 1 riskScale)

inductive Mode where
  | relaxed
  | strict
deriving DecidableEq, Repr

inductive TrendFallback where
  | fbnone
  | fbrelaxed
  | fbignore
deriving DecidableEq, BEq, Repr

/-- The early-return decisions of the scan cycle before plan scanning that a
regime result could conceivably reach (run.py lines 304-325 and 404-407): a
trend failure with fallback policy "none" (unless the direction is
overridden or the trend filter is ignored), or a tripped daily-loss guard.
The `regOk` argument is deliberately unread: the code's only reaction to a
failed regime (run.py lines 289-293) is to set `forced_relaxed`, never to
return. -/
def scanCycleAborts (regOk trendOk ignoreTrend overrideDir : Bool)
    (fallback : TrendFallback) (canTrade : Bool) : Bool :=
  let trOk := overrideDir || trendOk
  (!trOk && !ignoreTrend && (fallback == TrendFallback.fbnone)) || !canTrade

/-- Mode selection (run.py lines 289-293, 317-322 and 330-335): the
--relaxed flag, a regime failure without --ignore-trend, the relaxed trend
fallback, or a news-forced relaxed mode all select relaxed; otherwise strict
is selected unless the regime failed or the day's net_R is positive. -/
def scanMode (argsRelaxed ignoreTrend regOk newsForceRelaxed
    trendFallbackRelaxed : Bool) (netR : ℚ) : Mode :=
  let forcedRelaxed := (!regOk && !ignoreTrend) || trendFallbackRelaxed
  if argsRelaxed || forcedRelaxed || newsForceRelaxed then .relaxed
  else if !regOk || netR > 0 then .relaxed
  else .strict

/-- Claim C9: when any regime gate fails the result has `ok = false` and
carries a risk scale equal to the product of ×0.5 for a funding breach and
×0.6 for excess volatility (ATR% > 0.10); the scale actually applied to the
per-trade risk is floored at 0.2 and capped at 1.0; and the scan cycle is
not aborted on regime failure — the abort decision is independent of the
regime flag, and a failed regime (without --ignore-trend) switches the scan
to relaxed mode instead. -/
theorem regime_soft_veto (cfg : RegimeCfg) (atrp : Option ℚ)
    (adx4h fundingAbs s netR : ℚ)
    (trendOk ignoreTrend overrideDir canTrade argsRelaxed newsForce
      trendFallbackRelaxed : Bool) (fallback : TrendFallback)
    (hfail : adxGate cfg adx4h = false ∨ atrpGate cfg atrp = false ∨
      fundingGate cfg fundingAbs = false) :
    (regimeFilterResult cfg atrp adx4h fundingAbs).ok = false ∧
      (regimeFilterResult cfg atrp adx4h fundingAbs).riskScale =
        (if fundingGate cfg fundingAbs then 1 else 1/2) *
          (if atrpGate cfg atrp = false ∧ atrpHigh atrp = true then 6/10 else 1) ∧
      2/10 ≤ appliedRiskScale s ∧ appliedRiskScale s ≤ 1 ∧
      scanCycleAborts false trendOk ignoreTrend overrideDir fallback canTrade =
        scanCycleAborts true trendOk ignoreTrend overrideDir fallback canTrade ∧
      scanMode argsRelaxed false false newsForce trendFallbackRelaxed netR =
        .relaxed := by
  have hok : (adxGate cfg adx4h && atrpGate cfg atrp &&
      fundingGate cfg fundingAbs) = false := by
    rcases hfail with h | h | h <;> simp [h]
  refine ⟨?_, ?_, le_max_left _ _, max_le (by norm_num) (min_le_left 1 s), rfl, ?_⟩
  · simp [regimeFilterResult, hok]
  · simp only [regimeFilterResult, hok, if_false, Bool.false_eq_true]
    by_cases hf : fundingGate cfg fundingAbs <;>
      by_cases hat : atrpGate cfg atrp <;>
        by_cases hh : atrpHigh atrp <;>
          simp [hf, hat, hh]
  · simp [scanMode]

theorem regime_soft_veto_witness :
    (regimeFilterResult ⟨18, 2/100, 8/100, 15/10000⟩ (some (11/100)) 25 (1/10000)).ok
        = false ∧
      (regimeFilterResult ⟨18, 2/100, 8/100, 15/10000⟩ (some (11/100)) 25
          (1/10000)).riskScale =
        (if fundingGate ⟨18, 2/100, 8/100, 15/10000⟩ (1/10000) then 1 else 1/2) *
          (if atrpGate ⟨18, 2/100, 8/100, 15/10000⟩ (some (11/100)) = false ∧
              atrpHigh (some (11/100)) = true then 6/10 else 1) ∧
      2/10 ≤ appliedRiskScale (1/2) ∧ appliedRiskScale (1/2) ≤ 1 ∧
      scanCycleAborts false true false false TrendFallback.fbrelaxed true =
        scanCycleAborts true true false false TrendFallback.fbrelaxed true ∧
      scanMode false false false false false 0 = .relaxed :=
  regime_soft_veto ⟨18, 2/100, 8/100, 15/10000⟩ (some (11/100)) 25 (1/10000)
    (1/2) 0 true false false true false false false TrendFallback.fbrelaxed
    (Or.inr (Or.inl (by norm_num [atrpGate])))

end MMBot
